import Mathlib

/-!
Verification of the evidence-accumulation and genotyping-orchestration core of
`src/region_analysis/RepeatAnalyzer.cpp` (ExpansionHunter).

The C++ file is translated into a shallow embedding: the mutable
`RepeatAnalyzer` object becomes an immutable configuration
(`RepeatAnalyzerConfig`) plus an explicit accumulator state
(`RepeatAnalyzerState`); methods become functions on that state.  External
collaborators that the file calls but does not define (alignment-quality
predicates, the alignment classifier, the overlap counter, the statistical
genotyper) are represented by their results, recorded in the per-alignment
record `MateAlignment` and in an opaque genotyping function carried by the
configuration.  Repository components that the file uses but whose code is
not part of `src/` (the `CountTable` class, the breakpoint-statistics
calculator, the caller that accumulates in-repeat read pairs) are modelled
from the specification, as marked on their doc comments.
-/

namespace ehunter

/-- Modelled from the spec: the alignment-type enumeration produced by the
external alignment classifier (its declaration is not under `src/`); the
spec lists the canonical types Spans, Flanks, Inside and a catch-all Other. -/
inductive AlignmentType where
  | kSpansRepeat
  | kFlanksRepeat
  | kInsideRepeat
  | kOther
deriving DecidableEq, BEq

/-- Modelled from the spec: `CountTable` (class not under `src/`) is a sparse
mapping from an integer number of repeat units to an occurrence count; it is
represented here by the multiset of observed elements, so that the count of a
key is its multiplicity. -/
abbrev CountTable := Multiset Int

/-- Modelled from the spec: `CountTable::incrementCountOf` adds one
observation of the given element. -/
def incrementCountOf (t : CountTable) (element : Int) : CountTable :=
  element ::ₘ t

/-- Modelled from the spec: the count stored for a given element. -/
def countOf (t : CountTable) (element : Int) : Nat :=
  Multiset.count element t

/-- Modelled from the spec: `CountTable::getElementsWithNonzeroCounts` returns
the keys holding a non-zero count, in the ascending order of the underlying
ordered map: the distinct observed elements, sorted. -/
def getElementsWithNonzeroCounts (t : CountTable) : List Int :=
  Quotient.liftOn t (fun l => List.insertionSort (· ≤ ·) l.dedup)
    (fun _ _ hab =>
      List.eq_of_perm_of_sorted
        ((List.perm_insertionSort _ _).trans
          ((List.Perm.dedup hab).trans (List.perm_insertionSort _ _).symm))
        (List.sorted_insertionSort _ _) (List.sorted_insertionSort _ _))

/-- Modelled from the spec: `collapseTopElements` merges every observation
above the cutoff into the cutoff bucket and leaves the rest unchanged. -/
def collapseTopElements (t : CountTable) (upperBound : Int) : CountTable :=
  t.map (fun x => min x upperBound)

/-- The C++ idiom `v.empty() ? 0 : *std::max_element(v.begin(), v.end())`. -/
def maxOrZero : List Int → Int
  | [] => 0
  | x :: xs => xs.foldl max x

/-- `generateCandidateAlleleSizes` from `RepeatAnalyzer.cpp` (lines 142-165):
the sizes with spanning support, with the longest non-spanning size appended
when it strictly exceeds the longest spanning size. -/
def generateCandidateAlleleSizes
    (spanningTable flankingTable inrepeatTable : CountTable) : List Int :=
  let candidateSizes := getElementsWithNonzeroCounts spanningTable
  let longestSpanning := maxOrZero candidateSizes
  let flankingSizes := getElementsWithNonzeroCounts flankingTable
  let longestFlanking := maxOrZero flankingSizes
  let inrepeatSizes := getElementsWithNonzeroCounts inrepeatTable
  let longestInrepeat := maxOrZero inrepeatSizes
  let longestNonSpanning := max longestFlanking longestInrepeat
  if longestSpanning < longestNonSpanning then candidateSizes ++ [longestNonSpanning]
  else candidateSizes

/-- The longest size with spanning support (0 when there is none). -/
def longestSpanningOf (s : CountTable) : Int :=
  maxOrZero (getElementsWithNonzeroCounts s)

/-- The longest size supported by a flanking or in-repeat read (0 when there
is none). -/
def longestNonSpanningOf (f i : CountTable) : Int :=
  max (maxOrZero (getElementsWithNonzeroCounts f)) (maxOrZero (getElementsWithNonzeroCounts i))

/-- One mate alignment as seen by `RepeatAnalyzer`: the results of each
external collaborator call on it (classifier verdict, overlap count, the
generic quality filter and the two flank-quality predicates, and whether the
alignment crosses each breakpoint, which the external statistics calculator
consumes). -/
structure MateAlignment where
  classifiedType : AlignmentType
  numRepeatUnitsOverlapped : Int
  passesAlignmentFilters : Bool
  goodLeftFlank : Bool
  goodRightFlank : Bool
  spansLeftBreakpoint : Bool
  spansRightBreakpoint : Bool
deriving DecidableEq

/-- Modelled from the spec: the per-alignment record built by
`classifyReadAlignment` (its class declaration is not under `src/`); its
accessor `numRepeatUnitsSpanned` returns the stored overlap count. -/
structure RepeatAlignmentStats where
  canonicalAlignmentType : AlignmentType
  numRepeatUnitsSpanned : Int
deriving DecidableEq

/-- `RepeatAnalyzer::classifyReadAlignment` (lines 116-122): pairs the
classifier verdict with the full-unit overlap count. -/
def classifyReadAlignment (alignment : MateAlignment) : RepeatAlignmentStats :=
  { canonicalAlignmentType := alignment.classifiedType
    numRepeatUnitsSpanned := alignment.numRepeatUnitsOverlapped }

/-- `checkIfAlignmentIsConfident` (lines 46-74). -/
def checkIfAlignmentIsConfident (alignment : MateAlignment)
    (alignmentStats : RepeatAlignmentStats) : Bool :=
  if !alignment.passesAlignmentFilters then
    false
  else
    let doesReadAlignWellOverLeftFlank := alignment.goodLeftFlank
    let doesReadAlignWellOverRightFlank := alignment.goodRightFlank
    if alignmentStats.canonicalAlignmentType == AlignmentType.kFlanksRepeat
        && !doesReadAlignWellOverLeftFlank && !doesReadAlignWellOverRightFlank then
      false
    else if alignmentStats.canonicalAlignmentType == AlignmentType.kSpansRepeat
        && (!doesReadAlignWellOverLeftFlank || !doesReadAlignWellOverRightFlank) then
      false
    else
      true

/-- Modelled from the spec: the statistics kept by the external breakpoint
accumulator (class not under `src/`): the counts of confident alignments
spanning the left and the right breakpoint. -/
structure GraphVariantAlignmentStats where
  numReadsSpanningLeftBreakpoint : Nat
  numReadsSpanningRightBreakpoint : Nat
deriving DecidableEq

/-- Modelled from the spec: feeding one confident alignment to the breakpoint
accumulator bumps the counter of each breakpoint the alignment crosses. -/
def inspect (s : GraphVariantAlignmentStats) (alignment : MateAlignment) :
    GraphVariantAlignmentStats :=
  { numReadsSpanningLeftBreakpoint :=
      s.numReadsSpanningLeftBreakpoint + (if alignment.spansLeftBreakpoint then 1 else 0)
    numReadsSpanningRightBreakpoint :=
      s.numReadsSpanningRightBreakpoint + (if alignment.spansRightBreakpoint then 1 else 0) }

/-- The mutable members of `RepeatAnalyzer`. -/
structure RepeatAnalyzerState where
  countsOfSpanningReads : CountTable
  countsOfFlankingReads : CountTable
  countsOfInrepeatReads : CountTable
  countOfInrepeatReadPairs : Nat
  alignmentStatsCalculator : GraphVariantAlignmentStats
deriving DecidableEq

/-- `RepeatAnalyzer::summarizeAlignmentsToReadCounts` (lines 124-140). -/
def summarizeAlignmentsToReadCounts (st : RepeatAnalyzerState)
    (repeatAlignmentStats : RepeatAlignmentStats) : RepeatAnalyzerState :=
  match repeatAlignmentStats.canonicalAlignmentType with
  | AlignmentType.kSpansRepeat =>
      { st with countsOfSpanningReads :=
          incrementCountOf st.countsOfSpanningReads repeatAlignmentStats.numRepeatUnitsSpanned }
  | AlignmentType.kFlanksRepeat =>
      { st with countsOfFlankingReads :=
          incrementCountOf st.countsOfFlankingReads repeatAlignmentStats.numRepeatUnitsSpanned }
  | AlignmentType.kInsideRepeat =>
      { st with countsOfInrepeatReads :=
          incrementCountOf st.countsOfInrepeatReads repeatAlignmentStats.numRepeatUnitsSpanned }
  | AlignmentType.kOther => st

/-- `RepeatAnalyzer::processMates` (lines 76-114): classify and filter each
mate independently; a confident alignment is inspected by the breakpoint
accumulator and summarized into the count tables, a non-confident one only
produces a diagnostic message (no state change). -/
def processMates (st : RepeatAnalyzerState) (readAlignment mateAlignment : MateAlignment) :
    RepeatAnalyzerState :=
  let readAlignmentStats := classifyReadAlignment readAlignment
  let mateAlignmentStats := classifyReadAlignment mateAlignment
  let isReadAlignmentConfident := checkIfAlignmentIsConfident readAlignment readAlignmentStats
  let isMateAlignmentConfident := checkIfAlignmentIsConfident mateAlignment mateAlignmentStats
  let st1 :=
    if isReadAlignmentConfident then
      summarizeAlignmentsToReadCounts
        { st with alignmentStatsCalculator := inspect st.alignmentStatsCalculator readAlignment }
        readAlignmentStats
    else st
  let st2 :=
    if isMateAlignmentConfident then
      summarizeAlignmentsToReadCounts
        { st1 with alignmentStatsCalculator := inspect st1.alignmentStatsCalculator mateAlignment }
        mateAlignmentStats
    else st1
  st2

/-- Modelled from the spec: the caller of `processMates` increments
`countOfInrepeatReadPairs_` when both per-mate classifications equal Inside
(the caller's code is not under `src/`; spec 4.2). -/
def processMatePair (st : RepeatAnalyzerState) (readAlignment mateAlignment : MateAlignment) :
    RepeatAnalyzerState :=
  let st1 := processMates st readAlignment mateAlignment
  if (classifyReadAlignment readAlignment).canonicalAlignmentType = AlignmentType.kInsideRepeat
      ∧ (classifyReadAlignment mateAlignment).canonicalAlignmentType
          = AlignmentType.kInsideRepeat then
    { st1 with countOfInrepeatReadPairs := st1.countOfInrepeatReadPairs + 1 }
  else st1

/-- Processing a whole locus: `processMatePair` applied to each read pair. -/
def processAllPairs (st : RepeatAnalyzerState)
    (pairs : List (MateAlignment × MateAlignment)) : RepeatAnalyzerState :=
  pairs.foldl (fun s p => processMatePair s p.1 p.2) st

/-- Whether both mates of a pair classify as fully inside the repeat. -/
def bothInsideRepeat (p : MateAlignment × MateAlignment) : Bool :=
  decide ((classifyReadAlignment p.1).canonicalAlignmentType = AlignmentType.kInsideRepeat
    ∧ (classifyReadAlignment p.2).canonicalAlignmentType = AlignmentType.kInsideRepeat)

/-- The haploid/diploid regime of a locus. -/
inductive AlleleCount where
  | kOne
  | kTwo
deriving DecidableEq

/-- The genotyper parameters read by `analyze` (declared outside `src/`;
fields kept as in the source usage). -/
structure GenotyperParams where
  minLocusCoverage : Nat
  minBreakpointSpanningReads : Nat
deriving DecidableEq

/-- The per-locus statistics handed to `analyze`. -/
structure LocusStats where
  alleleCount : AlleleCount
  meanReadLength : Nat
  depth : ℚ
deriving DecidableEq

/-- Modelled from the spec: the optional genotype produced by the external
statistical genotyper - two allele sizes (class not under `src/`; its
contents are never inspected by this core). -/
structure RepeatGenotype where
  shortAlleleSizeInUnits : Int
  longAlleleSizeInUnits : Int
deriving DecidableEq

/-- The bit-flag set attached to a genotype result; only `kLowDepth` is used
by this core. -/
structure GenotypeFilter where
  kLowDepth : Bool
deriving DecidableEq

/-- `GenotypeFilter()`: the empty flag set. -/
def GenotypeFilter.init : GenotypeFilter := { kLowDepth := false }

/-- `filter | GenotypeFilter::kLowDepth`. -/
def GenotypeFilter.orLowDepth (f : GenotypeFilter) : GenotypeFilter :=
  { f with kLowDepth := true }

/-- The arguments `analyze` passes to the external `RepeatGenotyper`. -/
structure RepeatGenotyperInput where
  haplotypeDepth : ℚ
  alleleCount : AlleleCount
  repeatUnitLength : Nat
  maxNumUnitsInRead : Int
  propCorrectMolecules : ℚ
  spanningTable : CountTable
  flankingTable : CountTable
  inrepeatTable : CountTable
  countOfInrepeatReadPairs : Nat
  candidateAlleleSizes : List Int

/-- The immutable members of `RepeatAnalyzer`, with the external statistical
genotyper represented by the function it computes. -/
structure RepeatAnalyzerConfig where
  repeatUnit : String
  genotyperParams : GenotyperParams
  genotypeRepeat : RepeatGenotyperInput → Option RepeatGenotype

/-- `std::ceil(stats.meanReadLength() / static_cast<double>(repeatUnitLength))`
(line 183); for `int32` operands the double computation coincides with the
exact rational ceiling. -/
def maxNumUnitsInRead (repeatUnitLength : Nat) (stats : LocusStats) : Int :=
  Int.ceil ((stats.meanReadLength : ℚ) / (repeatUnitLength : ℚ))

/-- The breakpoint-support threshold of lines 192-194: the configured value
for diploid loci, halved (integer division) otherwise. -/
def minBreakpointSpanningReadsFor (params : GenotyperParams)
    (alleleCount : AlleleCount) : Nat :=
  if alleleCount = AlleleCount.kTwo then params.minBreakpointSpanningReads
  else params.minBreakpointSpanningReads / 2

/-- The argument bundle built by `analyze` (lines 181-199) for the external
genotyper: collapsed copies of the three tables, the derived parameters and
the candidate allele sizes. -/
def genotyperInput (cfg : RepeatAnalyzerConfig) (st : RepeatAnalyzerState)
    (stats : LocusStats) : RepeatGenotyperInput :=
  let repeatUnitLength := cfg.repeatUnit.length
  let maxUnits := maxNumUnitsInRead repeatUnitLength stats
  let spanningTable := collapseTopElements st.countsOfSpanningReads maxUnits
  let flankingTable := collapseTopElements st.countsOfFlankingReads maxUnits
  let inrepeatTable := collapseTopElements st.countsOfInrepeatReads maxUnits
  { haplotypeDepth := if stats.alleleCount = AlleleCount.kTwo then stats.depth / 2 else stats.depth
    alleleCount := stats.alleleCount
    repeatUnitLength := repeatUnitLength
    maxNumUnitsInRead := maxUnits
    propCorrectMolecules := 97 / 100
    spanningTable := spanningTable
    flankingTable := flankingTable
    inrepeatTable := inrepeatTable
    countOfInrepeatReadPairs := st.countOfInrepeatReadPairs
    candidateAlleleSizes := generateCandidateAlleleSizes spanningTable flankingTable inrepeatTable }

/-- The `RepeatFindings` result value: the three (possibly collapsed) tables,
the allele count, the optional genotype and the filter flags. -/
structure RepeatFindings where
  spanningTable : CountTable
  flankingTable : CountTable
  inrepeatTable : CountTable
  alleleCount : AlleleCount
  genotype : Option RepeatGenotype
  genotypeFilter : GenotypeFilter
deriving DecidableEq

/-- `RepeatAnalyzer::analyze` (lines 167-212).  The C++ method is `const`; the
translation makes that explicit by returning, next to the findings, the state
of the analyzer when the method ends. -/
def analyze (cfg : RepeatAnalyzerConfig) (st : RepeatAnalyzerState) (stats : LocusStats) :
    RepeatFindings × RepeatAnalyzerState :=
  if stats.meanReadLength = 0 ∨ stats.depth < (cfg.genotyperParams.minLocusCoverage : ℚ) then
    ({ spanningTable := st.countsOfSpanningReads
       flankingTable := st.countsOfFlankingReads
       inrepeatTable := st.countsOfInrepeatReads
       alleleCount := stats.alleleCount
       genotype := none
       genotypeFilter := GenotypeFilter.init.orLowDepth }, st)
  else
    let repeatUnitLength := cfg.repeatUnit.length
    let maxUnits := maxNumUnitsInRead repeatUnitLength stats
    let spanningTable := collapseTopElements st.countsOfSpanningReads maxUnits
    let flankingTable := collapseTopElements st.countsOfFlankingReads maxUnits
    let inrepeatTable := collapseTopElements st.countsOfInrepeatReads maxUnits
    let minBp := minBreakpointSpanningReadsFor cfg.genotyperParams stats.alleleCount
    let repeatGenotype := cfg.genotypeRepeat (genotyperInput cfg st stats)
    let alignmentStats := st.alignmentStatsCalculator
    let genotypeFilter :=
      if alignmentStats.numReadsSpanningRightBreakpoint < minBp
          ∨ alignmentStats.numReadsSpanningLeftBreakpoint < minBp then
        GenotypeFilter.init.orLowDepth
      else GenotypeFilter.init
    ({ spanningTable := spanningTable
       flankingTable := flankingTable
       inrepeatTable := inrepeatTable
       alleleCount := stats.alleleCount
       genotype := repeatGenotype
       genotypeFilter := genotypeFilter }, st)

/-- The contribution of processed alignments to the accumulator state, used
to state and prove the additive characterization of `processMates`. -/
structure EvidenceDelta where
  spanning : CountTable
  flanking : CountTable
  inrepeat : CountTable
  pairs : Nat
  left : Nat
  right : Nat

/-- Adding a contribution to the accumulator state. -/
def applyDelta (st : RepeatAnalyzerState) (d : EvidenceDelta) : RepeatAnalyzerState :=
  { countsOfSpanningReads := st.countsOfSpanningReads + d.spanning
    countsOfFlankingReads := st.countsOfFlankingReads + d.flanking
    countsOfInrepeatReads := st.countsOfInrepeatReads + d.inrepeat
    countOfInrepeatReadPairs := st.countOfInrepeatReadPairs + d.pairs
    alignmentStatsCalculator :=
      { numReadsSpanningLeftBreakpoint :=
          st.alignmentStatsCalculator.numReadsSpanningLeftBreakpoint + d.left
        numReadsSpanningRightBreakpoint :=
          st.alignmentStatsCalculator.numReadsSpanningRightBreakpoint + d.right } }

/-- Componentwise sum of two contributions. -/
def addDelta (d e : EvidenceDelta) : EvidenceDelta :=
  { spanning := d.spanning + e.spanning
    flanking := d.flanking + e.flanking
    inrepeat := d.inrepeat + e.inrepeat
    pairs := d.pairs + e.pairs
    left := d.left + e.left
    right := d.right + e.right }

/-- What one mate alignment contributes: nothing when it is not confident;
otherwise one observation in the table matching its canonical type (none for
Other) and one unit at each breakpoint it spans. -/
def mateDelta (a : MateAlignment) : EvidenceDelta :=
  if checkIfAlignmentIsConfident a (classifyReadAlignment a) then
    { spanning :=
        if a.classifiedType = AlignmentType.kSpansRepeat then {a.numRepeatUnitsOverlapped} else 0
      flanking :=
        if a.classifiedType = AlignmentType.kFlanksRepeat then {a.numRepeatUnitsOverlapped} else 0
      inrepeat :=
        if a.classifiedType = AlignmentType.kInsideRepeat then {a.numRepeatUnitsOverlapped} else 0
      pairs := 0
      left := if a.spansLeftBreakpoint then 1 else 0
      right := if a.spansRightBreakpoint then 1 else 0 }
  else
    { spanning := 0, flanking := 0, inrepeat := 0, pairs := 0, left := 0, right := 0 }

/-- What a whole pair contributes under `processMatePair`: both mate
contributions plus the in-repeat-pair bump. -/
def pairDelta (p : MateAlignment × MateAlignment) : EvidenceDelta :=
  addDelta (addDelta (mateDelta p.1) (mateDelta p.2))
    { spanning := 0, flanking := 0, inrepeat := 0
      pairs := if bothInsideRepeat p then 1 else 0, left := 0, right := 0 }

/-- The spanning-table contribution of one processed mate, as claim C5 words
it: one observation at `numRepeatUnitsSpanned` when the alignment passes the
confidence filter and its canonical type is Spans, nothing otherwise. -/
def spanningContribution (a : MateAlignment) : CountTable :=
  if checkIfAlignmentIsConfident a (classifyReadAlignment a) = true
      ∧ (classifyReadAlignment a).canonicalAlignmentType = AlignmentType.kSpansRepeat then
    {(classifyReadAlignment a).numRepeatUnitsSpanned}
  else 0

/-- The flanking-table contribution of one processed mate. -/
def flankingContribution (a : MateAlignment) : CountTable :=
  if checkIfAlignmentIsConfident a (classifyReadAlignment a) = true
      ∧ (classifyReadAlignment a).canonicalAlignmentType = AlignmentType.kFlanksRepeat then
    {(classifyReadAlignment a).numRepeatUnitsSpanned}
  else 0

/-- The in-repeat-table contribution of one processed mate. -/
def inrepeatContribution (a : MateAlignment) : CountTable :=
  if checkIfAlignmentIsConfident a (classifyReadAlignment a) = true
      ∧ (classifyReadAlignment a).canonicalAlignmentType = AlignmentType.kInsideRepeat then
    {(classifyReadAlignment a).numRepeatUnitsSpanned}
  else 0

/-- What one processed mate adds to the left-breakpoint spanning count: it is
inspected by the accumulator exactly when confident. -/
def leftBreakpointContribution (a : MateAlignment) : Nat :=
  if checkIfAlignmentIsConfident a (classifyReadAlignment a) = true
      ∧ a.spansLeftBreakpoint then 1 else 0

/-- What one processed mate adds to the right-breakpoint spanning count. -/
def rightBreakpointContribution (a : MateAlignment) : Nat :=
  if checkIfAlignmentIsConfident a (classifyReadAlignment a) = true
      ∧ a.spansRightBreakpoint then 1 else 0

/-- A concrete parameter set used by witnesses. -/
def sampleParams : GenotyperParams :=
  { minLocusCoverage := 10, minBreakpointSpanningReads := 5 }

/-- A concrete configuration whose genotyper never produces a genotype. -/
def sampleConfigNone : RepeatAnalyzerConfig :=
  { repeatUnit := "CAG", genotyperParams := sampleParams, genotypeRepeat := fun _ => none }

/-- A concrete configuration whose genotyper always produces a genotype. -/
def sampleConfigSome : RepeatAnalyzerConfig :=
  { repeatUnit := "CAG", genotyperParams := sampleParams
    genotypeRepeat := fun _ => some { shortAlleleSizeInUnits := 3, longAlleleSizeInUnits := 7 } }

/-- A concrete accumulated state with thin breakpoint support on the left. -/
def sampleState : RepeatAnalyzerState :=
  { countsOfSpanningReads := {3, 3, 15}
    countsOfFlankingReads := {4}
    countsOfInrepeatReads := {6}
    countOfInrepeatReadPairs := 2
    alignmentStatsCalculator :=
      { numReadsSpanningLeftBreakpoint := 1, numReadsSpanningRightBreakpoint := 9 } }

/-- The all-zero accumulator state a fresh analyzer starts from. -/
def initialState : RepeatAnalyzerState :=
  { countsOfSpanningReads := 0
    countsOfFlankingReads := 0
    countsOfInrepeatReads := 0
    countOfInrepeatReadPairs := 0
    alignmentStatsCalculator :=
      { numReadsSpanningLeftBreakpoint := 0, numReadsSpanningRightBreakpoint := 0 } }

/-- Locus statistics with a zero mean read length. -/
def statsZeroRead : LocusStats :=
  { alleleCount := AlleleCount.kTwo, meanReadLength := 0, depth := 50 }

/-- Locus statistics with ample data. -/
def statsNormal : LocusStats :=
  { alleleCount := AlleleCount.kTwo, meanReadLength := 10, depth := 50 }

/-- A confident spanning mate crossing both breakpoints. -/
def mateSpanGood : MateAlignment :=
  { classifiedType := AlignmentType.kSpansRepeat
    numRepeatUnitsOverlapped := 5
    passesAlignmentFilters := true
    goodLeftFlank := true
    goodRightFlank := true
    spansLeftBreakpoint := true
    spansRightBreakpoint := true }

/-- A confident mate lying fully inside the repeat. -/
def mateInside : MateAlignment :=
  { classifiedType := AlignmentType.kInsideRepeat
    numRepeatUnitsOverlapped := 20
    passesAlignmentFilters := true
    goodLeftFlank := false
    goodRightFlank := false
    spansLeftBreakpoint := false
    spansRightBreakpoint := false }

/-- A concrete mixed read pair. -/
def pairA : MateAlignment × MateAlignment := (mateSpanGood, mateInside)

/-- A concrete read pair with both mates inside the repeat. -/
def pairB : MateAlignment × MateAlignment := (mateInside, mateInside)

theorem mem_getElementsWithNonzeroCounts (t : CountTable) (x : Int) :
    x ∈ getElementsWithNonzeroCounts t ↔ 0 < countOf t x := by
  induction t using Quotient.inductionOn with
  | h l =>
      show x ∈ List.insertionSort (· ≤ ·) l.dedup ↔ 0 < countOf (↑l) x
      rw [(List.perm_insertionSort (· ≤ ·) l.dedup).mem_iff, List.mem_dedup]
      exact Iff.trans (Iff.symm (Multiset.mem_coe)) (Iff.symm Multiset.count_pos)

theorem nodup_getElementsWithNonzeroCounts (t : CountTable) :
    (getElementsWithNonzeroCounts t).Nodup := by
  induction t using Quotient.inductionOn with
  | h l =>
      show (List.insertionSort (· ≤ ·) l.dedup).Nodup
      exact (List.perm_insertionSort (· ≤ ·) l.dedup).nodup_iff.mpr (List.nodup_dedup l)

theorem getElementsWithNonzeroCounts_eq_nil (t : CountTable) :
    getElementsWithNonzeroCounts t = [] ↔ t = 0 := by
  constructor
  · intro h
    by_contra hne
    obtain ⟨x, hx⟩ := Multiset.exists_mem_of_ne_zero hne
    have hmem : x ∈ getElementsWithNonzeroCounts t :=
      (mem_getElementsWithNonzeroCounts t x).mpr (Multiset.count_pos.mpr hx)
    rw [h] at hmem
    exact (List.not_mem_nil x) hmem
  · intro h
    subst h
    rfl

theorem self_le_foldl_max : ∀ (xs : List Int) (a : Int), a ≤ xs.foldl max a := by
  intro xs
  induction xs with
  | nil => intro a; exact le_refl a
  | cons y ys ih => intro a; exact le_trans (le_max_left a y) (ih (max a y))

theorem mem_le_foldl_max : ∀ (xs : List Int) (a x : Int), x ∈ xs → x ≤ xs.foldl max a := by
  intro xs
  induction xs with
  | nil => intro a x h; cases h
  | cons y ys ih =>
      intro a x h
      rcases List.mem_cons.mp h with h | h
      · subst h
        exact le_trans (le_max_right a x) (self_le_foldl_max ys (max a x))
      · exact ih (max a y) x h

theorem le_maxOrZero_of_mem {l : List Int} {x : Int} (h : x ∈ l) : x ≤ maxOrZero l := by
  cases l with
  | nil => cases h
  | cons y ys =>
      rcases List.mem_cons.mp h with h | h
      · subst h; exact self_le_foldl_max ys x
      · exact mem_le_foldl_max ys y x h

theorem maxOrZero_mem : ∀ {l : List Int}, l ≠ [] → maxOrZero l ∈ l := by
  intro l hne
  cases l with
  | nil => exact absurd rfl hne
  | cons y ys =>
      show ys.foldl max y ∈ y :: ys
      clear hne
      induction ys generalizing y with
      | nil => exact List.mem_singleton.mpr rfl
      | cons z zs ih =>
          show zs.foldl max (max y z) ∈ y :: z :: zs
          rcases max_choice y z with hm | hm
          · rcases List.mem_cons.mp (ih (max y z)) with h | h
            · exact List.mem_cons.mpr (Or.inl (h.trans hm))
            · exact List.mem_cons.mpr (Or.inr (List.mem_cons.mpr (Or.inr h)))
          · rcases List.mem_cons.mp (ih (max y z)) with h | h
            · exact List.mem_cons.mpr (Or.inr (List.mem_cons.mpr (Or.inl (h.trans hm))))
            · exact List.mem_cons.mpr (Or.inr (List.mem_cons.mpr (Or.inr h)))

theorem generateCandidateAlleleSizes_eq (s f i : CountTable) :
    generateCandidateAlleleSizes s f i =
      if longestSpanningOf s < longestNonSpanningOf f i then
        getElementsWithNonzeroCounts s ++ [longestNonSpanningOf f i]
      else getElementsWithNonzeroCounts s := rfl

theorem generateCandidateAlleleSizes_eq_nil_iff (s f i : CountTable) :
    generateCandidateAlleleSizes s f i = [] ↔ s = 0 ∧ longestNonSpanningOf f i ≤ 0 := by
  rw [generateCandidateAlleleSizes_eq]
  split_ifs with h
  · constructor
    · intro habs
      simp at habs
    · rintro ⟨hs, hL⟩
      subst hs
      have h0 : longestSpanningOf (0 : CountTable) = 0 := rfl
      rw [h0] at h
      exact absurd hL (not_le.mpr h)
  · rw [getElementsWithNonzeroCounts_eq_nil]
    constructor
    · intro hs
      refine ⟨hs, ?_⟩
      subst hs
      have h0 : longestSpanningOf (0 : CountTable) = 0 := rfl
      rw [h0] at h
      exact not_lt.mp h
    · rintro ⟨hs, _⟩
      exact hs

theorem add_singleton_eq_cons (t : Multiset Int) (a : Int) : t + {a} = a ::ₘ t := by
  rw [add_comm]
  exact Multiset.singleton_add a t

theorem processOne_eq (st : RepeatAnalyzerState) (a : MateAlignment) :
    (if checkIfAlignmentIsConfident a (classifyReadAlignment a) then
        summarizeAlignmentsToReadCounts
          { st with alignmentStatsCalculator := inspect st.alignmentStatsCalculator a }
          (classifyReadAlignment a)
      else st) = applyDelta st (mateDelta a) := by
  unfold mateDelta
  cases hc : checkIfAlignmentIsConfident a (classifyReadAlignment a) with
  | false => simp [applyDelta]
  | true =>
      cases ht : a.classifiedType <;>
        simp [summarizeAlignmentsToReadCounts, classifyReadAlignment, ht, applyDelta, inspect,
          incrementCountOf, add_singleton_eq_cons]

theorem processMates_eq_applyDelta (st : RepeatAnalyzerState) (r m : MateAlignment) :
    processMates st r m = applyDelta (applyDelta st (mateDelta r)) (mateDelta m) := by
  show (if checkIfAlignmentIsConfident m (classifyReadAlignment m) then
      summarizeAlignmentsToReadCounts
        { (if checkIfAlignmentIsConfident r (classifyReadAlignment r) then
            summarizeAlignmentsToReadCounts
              { st with alignmentStatsCalculator := inspect st.alignmentStatsCalculator r }
              (classifyReadAlignment r)
          else st) with
          alignmentStatsCalculator :=
            inspect (if checkIfAlignmentIsConfident r (classifyReadAlignment r) then
                summarizeAlignmentsToReadCounts
                  { st with alignmentStatsCalculator := inspect st.alignmentStatsCalculator r }
                  (classifyReadAlignment r)
              else st).alignmentStatsCalculator m }
        (classifyReadAlignment m)
    else (if checkIfAlignmentIsConfident r (classifyReadAlignment r) then
        summarizeAlignmentsToReadCounts
          { st with alignmentStatsCalculator := inspect st.alignmentStatsCalculator r }
          (classifyReadAlignment r)
      else st)) = applyDelta (applyDelta st (mateDelta r)) (mateDelta m)
  rw [processOne_eq st r, processOne_eq (applyDelta st (mateDelta r)) m]

theorem applyDelta_addDelta (st : RepeatAnalyzerState) (d e : EvidenceDelta) :
    applyDelta st (addDelta d e) = applyDelta (applyDelta st d) e := by
  simp [applyDelta, addDelta, add_assoc]

theorem addDelta_comm (d e : EvidenceDelta) : addDelta d e = addDelta e d := by
  simp [addDelta, add_comm]

theorem applyDelta_comm (st : RepeatAnalyzerState) (d e : EvidenceDelta) :
    applyDelta (applyDelta st d) e = applyDelta (applyDelta st e) d := by
  rw [← applyDelta_addDelta, ← applyDelta_addDelta, addDelta_comm]

theorem processMatePair_eq_applyDelta (st : RepeatAnalyzerState) (r m : MateAlignment) :
    processMatePair st r m = applyDelta st (pairDelta (r, m)) := by
  unfold processMatePair pairDelta
  rw [processMates_eq_applyDelta, applyDelta_addDelta, applyDelta_addDelta]
  by_cases h : (classifyReadAlignment r).canonicalAlignmentType = AlignmentType.kInsideRepeat
      ∧ (classifyReadAlignment m).canonicalAlignmentType = AlignmentType.kInsideRepeat
  · simp [h, bothInsideRepeat, applyDelta]
  · simp [h, bothInsideRepeat, applyDelta]

theorem processMates_comm (st : RepeatAnalyzerState)
    (p q : MateAlignment × MateAlignment) :
    processMates (processMates st p.1 p.2) q.1 q.2
      = processMates (processMates st q.1 q.2) p.1 p.2 := by
  rw [processMates_eq_applyDelta, processMates_eq_applyDelta,
    processMates_eq_applyDelta, processMates_eq_applyDelta]
  rw [← applyDelta_addDelta, ← applyDelta_addDelta, ← applyDelta_addDelta, ← applyDelta_addDelta,
    ← applyDelta_addDelta, ← applyDelta_addDelta]
  congr 1
  simp [addDelta, add_comm, add_left_comm, add_assoc]

theorem processMatePair_comm (st : RepeatAnalyzerState)
    (p q : MateAlignment × MateAlignment) :
    processMatePair (processMatePair st p.1 p.2) q.1 q.2
      = processMatePair (processMatePair st q.1 q.2) p.1 p.2 := by
  rw [processMatePair_eq_applyDelta, processMatePair_eq_applyDelta,
    processMatePair_eq_applyDelta, processMatePair_eq_applyDelta]
  exact applyDelta_comm st (pairDelta (p.1, p.2)) (pairDelta (q.1, q.2))

theorem foldl_eq_of_perm_of_comm {α β : Type} (f : β → α → β)
    (hf : ∀ b x y, f (f b x) y = f (f b y) x) {l₁ l₂ : List α} (h : l₁.Perm l₂) :
    ∀ b, l₁.foldl f b = l₂.foldl f b := by
  induction h with
  | nil => intro b; rfl
  | cons x _ ih => intro b; simp only [List.foldl_cons]; exact ih _
  | swap x y l => intro b; simp only [List.foldl_cons]; rw [hf]
  | trans _ _ ih₁ ih₂ => intro b; rw [ih₁ b, ih₂ b]

theorem mateDelta_pairs (a : MateAlignment) : (mateDelta a).pairs = 0 := by
  unfold mateDelta
  split <;> rfl

theorem processMatePair_counter (st : RepeatAnalyzerState) (r m : MateAlignment) :
    (processMatePair st r m).countOfInrepeatReadPairs
      = st.countOfInrepeatReadPairs + (if bothInsideRepeat (r, m) then 1 else 0) := by
  rw [processMatePair_eq_applyDelta]
  simp [applyDelta, pairDelta, addDelta, mateDelta_pairs]

theorem countOf_collapse_of_gt (t : CountTable) (u k : Int) (h : u < k) :
    countOf (collapseTopElements t u) k = 0 := by
  unfold countOf collapseTopElements
  rw [Multiset.count_map]
  rw [Multiset.card_eq_zero]
  rw [Multiset.filter_eq_nil]
  intro a _ hk
  exact absurd (hk ▸ min_le_right a u) (not_le.mpr h)

theorem countOf_collapse_of_lt (t : CountTable) (u k : Int) (h : k < u) :
    countOf (collapseTopElements t u) k = countOf t k := by
  unfold countOf collapseTopElements
  rw [Multiset.count_map]
  rw [Multiset.count, Multiset.countP_eq_card_filter]
  congr 1
  apply Multiset.filter_congr
  intro a _
  constructor
  · intro hk
    rcases le_total a u with hle | hle
    · rw [min_eq_left hle] at hk
      exact hk
    · rw [min_eq_right hle] at hk
      exact absurd hk (ne_of_lt h)
  · intro hk
    rw [← hk, min_eq_left (le_of_lt (hk ▸ h))]

theorem countOf_collapse_at_cutoff (t : CountTable) (u : Int) :
    countOf (collapseTopElements t u) u
      = Multiset.card (Multiset.filter (fun x => u ≤ x) t) := by
  unfold countOf collapseTopElements
  rw [Multiset.count_map]
  congr 1
  apply Multiset.filter_congr
  intro a _
  constructor
  · intro hk
    exact min_eq_right_iff.mp hk.symm
  · intro hk
    exact (min_eq_right_iff.mpr hk).symm

theorem maxNumUnitsInRead_bounds (repeatUnitLength : Nat) (stats : LocusStats)
    (hu : 0 < repeatUnitLength) :
    (stats.meanReadLength : Int)
        ≤ maxNumUnitsInRead repeatUnitLength stats * (repeatUnitLength : Int)
    ∧ (maxNumUnitsInRead repeatUnitLength stats - 1) * (repeatUnitLength : Int)
        < (stats.meanReadLength : Int) := by
  have huq : (0 : ℚ) < (repeatUnitLength : ℚ) := by exact_mod_cast hu
  constructor
  · have h1 : (stats.meanReadLength : ℚ) / (repeatUnitLength : ℚ)
        ≤ ((maxNumUnitsInRead repeatUnitLength stats : Int) : ℚ) := Int.le_ceil _
    have h2 : (stats.meanReadLength : ℚ)
        ≤ ((maxNumUnitsInRead repeatUnitLength stats : Int) : ℚ) * (repeatUnitLength : ℚ) :=
      (div_le_iff₀ huq).mp h1
    exact_mod_cast h2
  · have h1 : ((maxNumUnitsInRead repeatUnitLength stats - 1 : Int) : ℚ)
        < (stats.meanReadLength : ℚ) / (repeatUnitLength : ℚ) := by
      rw [← Int.lt_ceil]
      exact sub_one_lt _
    have h2 : ((maxNumUnitsInRead repeatUnitLength stats - 1 : Int) : ℚ) * (repeatUnitLength : ℚ)
        < (stats.meanReadLength : ℚ) :=
      (lt_div_iff₀ huq).mp h1
    exact_mod_cast h2

theorem mateDelta_spanning (a : MateAlignment) :
    (mateDelta a).spanning = spanningContribution a := by
  unfold mateDelta spanningContribution
  cases hc : checkIfAlignmentIsConfident a (classifyReadAlignment a) with
  | true => simp [classifyReadAlignment, hc]
  | false => simp [hc]

theorem mateDelta_flanking (a : MateAlignment) :
    (mateDelta a).flanking = flankingContribution a := by
  unfold mateDelta flankingContribution
  cases hc : checkIfAlignmentIsConfident a (classifyReadAlignment a) with
  | true => simp [classifyReadAlignment, hc]
  | false => simp [hc]

theorem mateDelta_inrepeat (a : MateAlignment) :
    (mateDelta a).inrepeat = inrepeatContribution a := by
  unfold mateDelta inrepeatContribution
  cases hc : checkIfAlignmentIsConfident a (classifyReadAlignment a) with
  | true => simp [classifyReadAlignment, hc]
  | false => simp [hc]

theorem mateDelta_left (a : MateAlignment) :
    (mateDelta a).left = leftBreakpointContribution a := by
  unfold mateDelta leftBreakpointContribution
  cases hc : checkIfAlignmentIsConfident a (classifyReadAlignment a) with
  | true => simp [hc]
  | false => simp [hc]

theorem mateDelta_right (a : MateAlignment) :
    (mateDelta a).right = rightBreakpointContribution a := by
  unfold mateDelta rightBreakpointContribution
  cases hc : checkIfAlignmentIsConfident a (classifyReadAlignment a) with
  | true => simp [hc]
  | false => simp [hc]

/-- C1: for every triple of count tables, `generateCandidateAlleleSizes`
returns exactly the sizes with non-zero spanning support, together with the
longest non-spanning size exactly when the latter strictly exceeds the
longest spanning size; in particular spanning={5:2}, flanking={8:1},
inrepeat={} gives [5, 8] and spanning={10:3}, flanking={4:1}, inrepeat={6:1}
gives [10]. -/
theorem generateCandidateAlleleSizes_spec :
    (∀ (s f i : CountTable) (x : Int),
        x ∈ generateCandidateAlleleSizes s f i ↔
          (0 < countOf s x
            ∨ (longestSpanningOf s < longestNonSpanningOf f i
                ∧ x = longestNonSpanningOf f i)))
    ∧ generateCandidateAlleleSizes ({5, 5} : CountTable) ({8} : CountTable) (0 : CountTable)
        = [5, 8]
    ∧ generateCandidateAlleleSizes ({10, 10, 10} : CountTable) ({4} : CountTable)
        ({6} : CountTable) = [10] := by
  refine ⟨?_, by decide, by decide⟩
  intro s f i x
  rw [generateCandidateAlleleSizes_eq]
  by_cases h : longestSpanningOf s < longestNonSpanningOf f i
  · rw [if_pos h]
    simp [List.mem_append, mem_getElementsWithNonzeroCounts, h]
  · rw [if_neg h]
    simp [mem_getElementsWithNonzeroCounts, h]

/-- C2: the confidence filter returns false whenever the generic alignment
filter fails, and otherwise demands at least one good flank for Flanks-type
alignments, both good flanks for Spans-type alignments, and nothing more for
any other type. -/
theorem checkIfAlignmentIsConfident_spec :
    ∀ (a : MateAlignment) (s : RepeatAlignmentStats),
      checkIfAlignmentIsConfident a s =
        (a.passesAlignmentFilters &&
          match s.canonicalAlignmentType with
          | AlignmentType.kFlanksRepeat => a.goodLeftFlank || a.goodRightFlank
          | AlignmentType.kSpansRepeat => a.goodLeftFlank && a.goodRightFlank
          | AlignmentType.kInsideRepeat => true
          | AlignmentType.kOther => true) := by
  intro a s
  obtain ⟨ty, n⟩ := s
  obtain ⟨cty, m, pf, gl, gr, sl, sr⟩ := a
  cases ty <;> cases pf <;> cases gl <;> cases gr <;> rfl

/-- C3: with a zero mean read length or depth below the minimum locus
coverage, `analyze` skips genotyping: the findings carry the kLowDepth flag,
no genotype, and the three accumulated tables unchanged and uncollapsed. -/
theorem analyze_lowDepth_of_insufficientData
    (cfg : RepeatAnalyzerConfig) (st : RepeatAnalyzerState) (stats : LocusStats)
    (h : stats.meanReadLength = 0 ∨ stats.depth < (cfg.genotyperParams.minLocusCoverage : ℚ)) :
    (analyze cfg st stats).1.genotypeFilter.kLowDepth = true
    ∧ (analyze cfg st stats).1.genotype = none
    ∧ (analyze cfg st stats).1.spanningTable = st.countsOfSpanningReads
    ∧ (analyze cfg st stats).1.flankingTable = st.countsOfFlankingReads
    ∧ (analyze cfg st stats).1.inrepeatTable = st.countsOfInrepeatReads := by
  unfold analyze
  rw [if_pos h]
  exact ⟨rfl, rfl, rfl, rfl, rfl⟩

/-- Witness for C3: the insufficient-data hypothesis holds at a concrete
input and the conclusion follows by the theorem. -/
theorem analyze_lowDepth_of_insufficientData_witness :
    (statsZeroRead.meanReadLength = 0
      ∨ statsZeroRead.depth < (sampleConfigNone.genotyperParams.minLocusCoverage : ℚ))
    ∧ ((analyze sampleConfigNone sampleState statsZeroRead).1.genotypeFilter.kLowDepth = true
      ∧ (analyze sampleConfigNone sampleState statsZeroRead).1.genotype = none
      ∧ (analyze sampleConfigNone sampleState statsZeroRead).1.spanningTable
          = sampleState.countsOfSpanningReads
      ∧ (analyze sampleConfigNone sampleState statsZeroRead).1.flankingTable
          = sampleState.countsOfFlankingReads
      ∧ (analyze sampleConfigNone sampleState statsZeroRead).1.inrepeatTable
          = sampleState.countsOfInrepeatReads) :=
  ⟨Or.inl rfl,
    analyze_lowDepth_of_insufficientData sampleConfigNone sampleState statsZeroRead (Or.inl rfl)⟩

/-- C4: in the sufficient-data branch, when the confident-spanning count of
the left or the right breakpoint is below the threshold - the configured
value for diploid loci, halved by integer division for haploid loci - the
kLowDepth flag is set, while the genotype is still whatever the genotyper
returned. -/
theorem analyze_breakpointFilter_spec
    (cfg : RepeatAnalyzerConfig) (st : RepeatAnalyzerState) (stats : LocusStats)
    (hdata : ¬(stats.meanReadLength = 0
        ∨ stats.depth < (cfg.genotyperParams.minLocusCoverage : ℚ)))
    (hbp : st.alignmentStatsCalculator.numReadsSpanningLeftBreakpoint
          < minBreakpointSpanningReadsFor cfg.genotyperParams stats.alleleCount
      ∨ st.alignmentStatsCalculator.numReadsSpanningRightBreakpoint
          < minBreakpointSpanningReadsFor cfg.genotyperParams stats.alleleCount) :
    (analyze cfg st stats).1.genotypeFilter.kLowDepth = true
    ∧ (analyze cfg st stats).1.genotype = cfg.genotypeRepeat (genotyperInput cfg st stats)
    ∧ minBreakpointSpanningReadsFor cfg.genotyperParams AlleleCount.kTwo
        = cfg.genotyperParams.minBreakpointSpanningReads
    ∧ minBreakpointSpanningReadsFor cfg.genotyperParams AlleleCount.kOne
        = cfg.genotyperParams.minBreakpointSpanningReads / 2 := by
  refine ⟨?_, ?_, rfl, rfl⟩
  · unfold analyze
    rw [if_neg hdata]
    show (if st.alignmentStatsCalculator.numReadsSpanningRightBreakpoint
            < minBreakpointSpanningReadsFor cfg.genotyperParams stats.alleleCount
          ∨ st.alignmentStatsCalculator.numReadsSpanningLeftBreakpoint
            < minBreakpointSpanningReadsFor cfg.genotyperParams stats.alleleCount then
        GenotypeFilter.init.orLowDepth
      else GenotypeFilter.init).kLowDepth = true
    rw [if_pos hbp.symm]
    rfl
  · unfold analyze
    rw [if_neg hdata]

/-- Witness for C4: thin left-breakpoint support at a concrete input, with a
genotyper that does produce a genotype. -/
theorem analyze_breakpointFilter_spec_witness :
    ¬(statsNormal.meanReadLength = 0
        ∨ statsNormal.depth < (sampleConfigSome.genotyperParams.minLocusCoverage : ℚ))
    ∧ (sampleState.alignmentStatsCalculator.numReadsSpanningLeftBreakpoint
          < minBreakpointSpanningReadsFor sampleConfigSome.genotyperParams statsNormal.alleleCount
        ∨ sampleState.alignmentStatsCalculator.numReadsSpanningRightBreakpoint
          < minBreakpointSpanningReadsFor sampleConfigSome.genotyperParams statsNormal.alleleCount)
    ∧ ((analyze sampleConfigSome sampleState statsNormal).1.genotypeFilter.kLowDepth = true
        ∧ (analyze sampleConfigSome sampleState statsNormal).1.genotype
            = sampleConfigSome.genotypeRepeat
                (genotyperInput sampleConfigSome sampleState statsNormal)
        ∧ minBreakpointSpanningReadsFor sampleConfigSome.genotyperParams AlleleCount.kTwo
            = sampleConfigSome.genotyperParams.minBreakpointSpanningReads
        ∧ minBreakpointSpanningReadsFor sampleConfigSome.genotyperParams AlleleCount.kOne
            = sampleConfigSome.genotyperParams.minBreakpointSpanningReads / 2) :=
  ⟨by decide, by decide,
    analyze_breakpointFilter_spec sampleConfigSome sampleState statsNormal
      (by decide) (by decide)⟩

/-- C5: `processMates` treats the two mates independently; each mate that
passes the confidence filter adds exactly one observation to the single
table matching its canonical type (none for Other) and one unit to the count
of each breakpoint it spans, while a mate that fails the filter contributes
nothing; the in-repeat-pair counter is untouched. -/
theorem processMates_spec :
    ∀ (st : RepeatAnalyzerState) (r m : MateAlignment),
      (processMates st r m).countsOfSpanningReads
          = st.countsOfSpanningReads + spanningContribution r + spanningContribution m
      ∧ (processMates st r m).countsOfFlankingReads
          = st.countsOfFlankingReads + flankingContribution r + flankingContribution m
      ∧ (processMates st r m).countsOfInrepeatReads
          = st.countsOfInrepeatReads + inrepeatContribution r + inrepeatContribution m
      ∧ (processMates st r m).countOfInrepeatReadPairs = st.countOfInrepeatReadPairs
      ∧ (processMates st r m).alignmentStatsCalculator.numReadsSpanningLeftBreakpoint
          = st.alignmentStatsCalculator.numReadsSpanningLeftBreakpoint
              + leftBreakpointContribution r + leftBreakpointContribution m
      ∧ (processMates st r m).alignmentStatsCalculator.numReadsSpanningRightBreakpoint
          = st.alignmentStatsCalculator.numReadsSpanningRightBreakpoint
              + rightBreakpointContribution r + rightBreakpointContribution m := by
  intro st r m
  rw [processMates_eq_applyDelta]
  refine ⟨?_, ?_, ?_, ?_, ?_, ?_⟩ <;>
    simp [applyDelta, mateDelta_spanning, mateDelta_flanking, mateDelta_inrepeat,
      mateDelta_pairs, mateDelta_left, mateDelta_right, add_assoc]

/-- C6: over a whole locus the in-repeat read-pair counter grows by exactly
one per processed pair whose two mates both classify as Inside, and its
value is among the arguments `analyze` hands to the genotyper. -/
theorem inrepeatReadPairs_spec
    (st : RepeatAnalyzerState) (pairs : List (MateAlignment × MateAlignment))
    (cfg : RepeatAnalyzerConfig) (st2 : RepeatAnalyzerState) (stats : LocusStats)
    (hdata : ¬(stats.meanReadLength = 0
        ∨ stats.depth < (cfg.genotyperParams.minLocusCoverage : ℚ))) :
    (processAllPairs st pairs).countOfInrepeatReadPairs
        = st.countOfInrepeatReadPairs + pairs.countP bothInsideRepeat
    ∧ (genotyperInput cfg st2 stats).countOfInrepeatReadPairs = st2.countOfInrepeatReadPairs
    ∧ (analyze cfg st2 stats).1.genotype
        = cfg.genotypeRepeat (genotyperInput cfg st2 stats) := by
  refine ⟨?_, rfl, ?_⟩
  · induction pairs generalizing st with
    | nil => simp [processAllPairs]
    | cons p ps ih =>
        show (processAllPairs (processMatePair st p.1 p.2) ps).countOfInrepeatReadPairs = _
        rw [ih, processMatePair_counter, List.countP_cons]
        cases h : bothInsideRepeat p <;> simp [h] <;> omega
  · unfold analyze
    rw [if_neg hdata]

/-- Witness for C6: two concrete pairs, one with both mates inside the
repeat, at a concrete sufficient-data locus. -/
theorem inrepeatReadPairs_spec_witness :
    ¬(statsNormal.meanReadLength = 0
        ∨ statsNormal.depth < (sampleConfigSome.genotyperParams.minLocusCoverage : ℚ))
    ∧ ((processAllPairs initialState [pairA, pairB]).countOfInrepeatReadPairs
          = initialState.countOfInrepeatReadPairs + [pairA, pairB].countP bothInsideRepeat
      ∧ (genotyperInput sampleConfigSome sampleState statsNormal).countOfInrepeatReadPairs
          = sampleState.countOfInrepeatReadPairs
      ∧ (analyze sampleConfigSome sampleState statsNormal).1.genotype
          = sampleConfigSome.genotypeRepeat
              (genotyperInput sampleConfigSome sampleState statsNormal)) :=
  ⟨by decide,
    inrepeatReadPairs_spec initialState [pairA, pairB] sampleConfigSome sampleState statsNormal
      (by decide)⟩

/-- C7: in the sufficient-data branch the collapse cutoff is the exact
rational ceiling of meanReadLength over repeatUnitLength (characterized by
its bounds), the three returned tables are the accumulated tables collapsed
at this cutoff, and collapsing removes every bucket above the cutoff,
merging its count into the cutoff bucket and leaving lower buckets
unchanged; cutoff 12 sends a table with two observations at 15 and one at 9
to two at 12 and one at 9. -/
theorem analyze_collapse_spec
    (cfg : RepeatAnalyzerConfig) (st : RepeatAnalyzerState) (stats : LocusStats)
    (hdata : ¬(stats.meanReadLength = 0
        ∨ stats.depth < (cfg.genotyperParams.minLocusCoverage : ℚ)))
    (hu : 0 < cfg.repeatUnit.length) :
    ((stats.meanReadLength : Int)
        ≤ maxNumUnitsInRead cfg.repeatUnit.length stats * (cfg.repeatUnit.length : Int)
      ∧ (maxNumUnitsInRead cfg.repeatUnit.length stats - 1) * (cfg.repeatUnit.length : Int)
          < (stats.meanReadLength : Int))
    ∧ (analyze cfg st stats).1.spanningTable
        = collapseTopElements st.countsOfSpanningReads
            (maxNumUnitsInRead cfg.repeatUnit.length stats)
    ∧ (analyze cfg st stats).1.flankingTable
        = collapseTopElements st.countsOfFlankingReads
            (maxNumUnitsInRead cfg.repeatUnit.length stats)
    ∧ (analyze cfg st stats).1.inrepeatTable
        = collapseTopElements st.countsOfInrepeatReads
            (maxNumUnitsInRead cfg.repeatUnit.length stats)
    ∧ (∀ (t : CountTable) (u k : Int), u < k → countOf (collapseTopElements t u) k = 0)
    ∧ (∀ (t : CountTable) (u : Int),
        countOf (collapseTopElements t u) u
          = Multiset.card (Multiset.filter (fun x => u ≤ x) t))
    ∧ (∀ (t : CountTable) (u k : Int), k < u →
        countOf (collapseTopElements t u) k = countOf t k)
    ∧ countOf (collapseTopElements ({15, 15, 9} : CountTable) 12) 12 = 2
    ∧ countOf (collapseTopElements ({15, 15, 9} : CountTable) 12) 15 = 0
    ∧ countOf (collapseTopElements ({15, 15, 9} : CountTable) 12) 9 = 1 := by
  refine ⟨maxNumUnitsInRead_bounds cfg.repeatUnit.length stats hu, ?_, ?_, ?_,
    countOf_collapse_of_gt, countOf_collapse_at_cutoff, countOf_collapse_of_lt,
    by decide, by decide, by decide⟩
  · unfold analyze
    rw [if_neg hdata]
  · unfold analyze
    rw [if_neg hdata]
  · unfold analyze
    rw [if_neg hdata]

/-- Witness for C7: the sufficient-data hypotheses hold at a concrete input
and the spanning table comes back collapsed at the ceiling cutoff. -/
theorem analyze_collapse_spec_witness :
    ¬(statsNormal.meanReadLength = 0
        ∨ statsNormal.depth < (sampleConfigNone.genotyperParams.minLocusCoverage : ℚ))
    ∧ 0 < sampleConfigNone.repeatUnit.length
    ∧ (analyze sampleConfigNone sampleState statsNormal).1.spanningTable
        = collapseTopElements sampleState.countsOfSpanningReads
            (maxNumUnitsInRead sampleConfigNone.repeatUnit.length statsNormal) :=
  ⟨by decide, by decide,
    (analyze_collapse_spec sampleConfigNone sampleState statsNormal (by decide) (by decide)).2.1⟩

/-- C8: `analyze` leaves the analyzer state exactly as it found it, so a
second call on the same state with the same LocusStats returns the same
findings. -/
theorem analyze_readonly_spec :
    ∀ (cfg : RepeatAnalyzerConfig) (st : RepeatAnalyzerState) (stats : LocusStats),
      (analyze cfg st stats).2 = st
      ∧ (analyze cfg (analyze cfg st stats).2 stats).1 = (analyze cfg st stats).1 := by
  intro cfg st stats
  have h2 : (analyze cfg st stats).2 = st := by
    unfold analyze
    by_cases h : stats.meanReadLength = 0
        ∨ stats.depth < (cfg.genotyperParams.minLocusCoverage : ℚ)
    · rw [if_pos h]
    · rw [if_neg h]
  exact ⟨h2, by rw [h2]⟩

/-- C9: the accumulator state after processing the read pairs of a locus,
and hence the findings of a subsequent `analyze`, do not depend on the order
in which the pairs are submitted - both for the bare `processMates` fold and
for the full per-pair step. -/
theorem processing_order_invariant
    (st : RepeatAnalyzerState) (l₁ l₂ : List (MateAlignment × MateAlignment))
    (h : l₁.Perm l₂) (cfg : RepeatAnalyzerConfig) (stats : LocusStats) :
    processAllPairs st l₁ = processAllPairs st l₂
    ∧ l₁.foldl (fun s p => processMates s p.1 p.2) st
        = l₂.foldl (fun s p => processMates s p.1 p.2) st
    ∧ (analyze cfg (processAllPairs st l₁) stats).1
        = (analyze cfg (processAllPairs st l₂) stats).1 := by
  have h1 : processAllPairs st l₁ = processAllPairs st l₂ :=
    foldl_eq_of_perm_of_comm _ (fun b x y => processMatePair_comm b x y) h st
  exact ⟨h1, foldl_eq_of_perm_of_comm _ (fun b x y => processMates_comm b x y) h st, by rw [h1]⟩

/-- Witness for C9: swapping two concrete pairs leaves the accumulated state
unchanged. -/
theorem processing_order_invariant_witness :
    ([pairA, pairB] : List (MateAlignment × MateAlignment)).Perm [pairB, pairA]
    ∧ processAllPairs initialState [pairA, pairB] = processAllPairs initialState [pairB, pairA] :=
  ⟨List.Perm.swap pairB pairA [],
    (processing_order_invariant initialState [pairA, pairB] [pairB, pairA]
      (List.Perm.swap pairB pairA []) sampleConfigNone statsNormal).1⟩

/-- C10 counterexample: with the spanning and in-repeat tables empty and the
flanking table holding one observation at zero repeat units, the candidate
list is empty although not all three tables are, so the claimed equivalence
"empty list iff three empty tables" fails. -/
theorem candidateSizes_empty_counterexample :
    generateCandidateAlleleSizes (0 : CountTable) ({0} : CountTable) (0 : CountTable) = []
    ∧ ¬((0 : CountTable) = 0 ∧ ({0} : CountTable) = 0 ∧ (0 : CountTable) = 0) :=
  ⟨by decide, by decide⟩

/-- C10 (amended): the candidate list never contains duplicates - the extra
candidate is appended only under a strict inequality, so a tie appends
nothing and an appended value strictly exceeds every spanning-derived
candidate; the list is empty iff the spanning table is empty and the longest
non-spanning size is at most zero; in particular, when every flanking and
in-repeat key is positive, the list is empty iff all three tables are
empty. -/
theorem generateCandidateAlleleSizes_nodup_spec :
    ∀ (s f i : CountTable),
      (generateCandidateAlleleSizes s f i).Nodup
      ∧ (longestSpanningOf s < longestNonSpanningOf f i →
          ∀ x ∈ getElementsWithNonzeroCounts s, x < longestNonSpanningOf f i)
      ∧ (generateCandidateAlleleSizes s f i = []
          ↔ s = 0 ∧ longestNonSpanningOf f i ≤ 0)
      ∧ ((∀ x ∈ f, (0 : Int) < x) → (∀ x ∈ i, (0 : Int) < x) →
          (generateCandidateAlleleSizes s f i = [] ↔ s = 0 ∧ f = 0 ∧ i = 0)) := by
  intro s f i
  have hexceed : longestSpanningOf s < longestNonSpanningOf f i →
      ∀ x ∈ getElementsWithNonzeroCounts s, x < longestNonSpanningOf f i := by
    intro h x hx
    exact lt_of_le_of_lt (le_maxOrZero_of_mem hx) h
  refine ⟨?_, hexceed, generateCandidateAlleleSizes_eq_nil_iff s f i, ?_⟩
  · rw [generateCandidateAlleleSizes_eq]
    split_ifs with h
    · refine List.Nodup.append (nodup_getElementsWithNonzeroCounts s)
        (List.nodup_singleton _) ?_
      intro x hx hx2
      rw [List.mem_singleton] at hx2
      exact absurd (hx2 ▸ hexceed h x hx) (lt_irrefl _)
    · exact nodup_getElementsWithNonzeroCounts s
  · intro hf hi
    rw [generateCandidateAlleleSizes_eq_nil_iff]
    constructor
    · rintro ⟨hs, hL⟩
      refine ⟨hs, ?_, ?_⟩
      · by_contra hfne
        have hnil : getElementsWithNonzeroCounts f ≠ [] := by
          intro hcon
          exact hfne ((getElementsWithNonzeroCounts_eq_nil f).mp hcon)
        have hmem : maxOrZero (getElementsWithNonzeroCounts f)
            ∈ getElementsWithNonzeroCounts f := maxOrZero_mem hnil
        have hmemf : maxOrZero (getElementsWithNonzeroCounts f) ∈ f :=
          Multiset.count_pos.mp ((mem_getElementsWithNonzeroCounts f _).mp hmem)
        have hpos : (0 : Int) < maxOrZero (getElementsWithNonzeroCounts f) := hf _ hmemf
        have : (0 : Int) < longestNonSpanningOf f i :=
          lt_of_lt_of_le hpos (le_max_left _ _)
        exact absurd hL (not_le.mpr this)
      · by_contra hine
        have hnil : getElementsWithNonzeroCounts i ≠ [] := by
          intro hcon
          exact hine ((getElementsWithNonzeroCounts_eq_nil i).mp hcon)
        have hmem : maxOrZero (getElementsWithNonzeroCounts i)
            ∈ getElementsWithNonzeroCounts i := maxOrZero_mem hnil
        have hmemi : maxOrZero (getElementsWithNonzeroCounts i) ∈ i :=
          Multiset.count_pos.mp ((mem_getElementsWithNonzeroCounts i _).mp hmem)
        have hpos : (0 : Int) < maxOrZero (getElementsWithNonzeroCounts i) := hi _ hmemi
        have : (0 : Int) < longestNonSpanningOf f i :=
          lt_of_lt_of_le hpos (le_max_right _ _)
        exact absurd hL (not_le.mpr this)
    · rintro ⟨hs, hf0, hi0⟩
      subst hf0
      subst hi0
      exact ⟨hs, le_refl 0⟩

/-- Witness for C10: the amended properties at a concrete triple of
tables. -/
theorem generateCandidateAlleleSizes_nodup_spec_witness :
    (generateCandidateAlleleSizes ({5, 5} : CountTable) ({8} : CountTable)
      (0 : CountTable)).Nodup :=
  (generateCandidateAlleleSizes_nodup_spec ({5, 5} : CountTable) ({8} : CountTable) 0).1

end ehunter
